import Mathlib

/-!
Shallow embedding of the pymp dispatcher (src/pymp/dispatcher.py and
src/pymp/messages.py).

Modelling conventions:
* Python namedtuples become Lean structures with the same field names.
* The lifecycle states `State.INIT .. State.TERMINATED` are the naturals
  0..4, exactly as `range(5)` in the source; the dispatcher state field is
  a plain `Nat` because the source never bounds it.
* The mutable `Dispatcher` object becomes a record threaded explicitly
  through each method; methods that can raise return `Except PyError`.
  Mutations that happen before an exception escapes are kept (the Python
  object is mutated in place), so such methods return the updated record
  alongside the `Except` outcome.
* `deque.appendleft` adds at the list head, `deque.append` at the list
  tail, and `deque.pop` removes from the list tail (the right end of the
  deque): the list index 0 is the left end of the Python deque.
* `generate_id()` draws 256-bit random tokens; the token is supplied as a
  `Nat` parameter by the caller of the model.
* The transport connection is abstracted by its outcome: `send` is a
  function from the message to a `SendOutcome`, `recv`/`poll` are supplied
  as a `RecvOutcome` and a `Bool` for the single step being modelled.
* `threading.Event` objects live in the pending table; `event.set()` is
  observable as the `Bool` returned by `_process_response`.
* Remote object methods are modelled as pure Lean functions from
  positional and keyword arguments to an `Except PyError Value`.
-/

/-- Python exception values that the dispatcher code can raise or carry
inside a `Response`. -/
inductive PyError where
  | valueError (msg : String)
  | nameError (msg : String)
  | attributeError (msg : String)
  | typeError (msg : String)
  | runtimeError (msg : String)
  | assertionError (msg : String)
  | unboundLocalError (msg : String)
  | exception (msg : String)
deriving DecidableEq, Repr

/-- Python values that travel over the wire in this model: the arguments,
return values and the `ProxyHandle` namedtuple
(`ProxyHandle = namedtuple('ProxyHandle', 'id obj_type exposed')`). -/
inductive Value where
  | none
  | bool (b : Bool)
  | int (n : Int)
  | str (s : String)
  | tuple (l : List Value)
  | dict (l : List (String × Value))
  | proxyHandle (id : Int) (obj_type : String) (exposed : List String)
deriving Repr

/-- `Request = namedtuple('Request', 'id proxy_id function args kwargs')`. -/
structure Request where
  id : Nat
  proxy_id : Option Int
  function : String
  args : List Value
  kwargs : List (String × Value)
deriving Repr

/-- `Response = namedtuple('Response', 'id exception return_value')`. -/
structure Response where
  id : Nat
  exception : Option PyError
  return_value : Value
deriving Repr

/-- The three message kinds the dispatcher puts on the wire; a
`DispatcherState` namedtuple carries only the numeric state. -/
inductive Msg where
  | request (r : Request)
  | response (r : Response)
  | dispatcherState (s : Nat)
deriving Repr

/-- `hasattr(msg, 'id')` and the id read in `_write_once`: `Request` and
`Response` have an `id` field, `DispatcherState` does not. -/
def msgId : Msg → Option Nat
  | .request r => some r.id
  | .response r => some r.id
  | .dispatcherState _ => none

/-- `isinstance(msg, DispatcherState)`. -/
def isDispatcherState : Msg → Bool
  | .dispatcherState _ => true
  | _ => false

/-- An entry of `self._pending` (`id => Event or Response`): either a
`threading.Event` (with its signalled flag) or an arrived `Response`.
`hasattr(entry, 'set')` holds exactly for the event case. -/
inductive Pending where
  | event (signaled : Bool)
  | stored (r : Response)
deriving Repr

/-- A live Python object held by the registry: its identity (`id(obj)`),
its `_dispatch_` attribute if any, and its callable attributes. -/
structure PyObj where
  oid : Int
  dispatch : Option (List String)
  methods : List (String × (List Value → List (String × Value) → Except PyError Value))

/-- A provided class as registered by `provide`: the class's
`_dispatch_` attribute (`getattr(source_class, '_dispatch_', None)`), the
class `__dict__` as a list of (attribute name, `callable(attribute)`)
pairs in iteration order, and the generator (`generator or source_class`)
that builds the instance from the request arguments. -/
structure ProvClass where
  dispatch : Option (List String)
  classDict : List (String × Bool)
  gen : List Value → List (String × Value) → PyObj

abbrev State.INIT : Nat := 0
abbrev State.STARTUP : Nat := 1
abbrev State.RUNNING : Nat := 2
abbrev State.SHUTDOWN : Nat := 3
abbrev State.TERMINATED : Nat := 4

/-- The mutable fields of a `Dispatcher` that the modelled methods touch.
`_consumed_classes` maps a type name to a proxy class in the source; only
the set of registered names matters to the modelled behaviour, the
constructed proxy is represented by the `CallResult.proxy` outcome. -/
structure Dispatcher where
  _state : Nat := State.INIT
  _queue : List Msg := []
  _pending : List (Nat × Pending) := []
  _provided_classes : List (String × ProvClass) := []
  _consumed_classes : List String := []
  _objects : List (Int × (PyObj × Nat)) := []

/-- Association-list lookup, the model of a Python dict read. -/
def lookupA {α β : Type} [DecidableEq α] : List (α × β) → α → Option β
  | [], _ => none
  | (a, b) :: t, k => if a = k then some b else lookupA t k

/-- Removal of a key, the model of `dict.pop(k, default)` / `del d[k]`. -/
def eraseA {α β : Type} [DecidableEq α] (l : List (α × β)) (k : α) : List (α × β) :=
  l.filter (fun p => decide (p.1 ≠ k))

/-- Key assignment, the model of `d[k] = v`. -/
def insertA {α β : Type} [DecidableEq α] (l : List (α × β)) (k : α) (v : β) : List (α × β) :=
  (k, v) :: eraseA l k

/-- `get_state` / the `state` property getter. -/
def get_state (d : Dispatcher) : Nat := d._state

/-- `set_state` (the `state` property setter): a strictly greater state is
installed and a `DispatcherState` control message is appended at the head
of the line (the pop end of the deque); an equal state is a no-op; a lower
state raises `ValueError`. -/
def set_state (d : Dispatcher) (state : Nat) : Except PyError Dispatcher :=
  if state > get_state d then
    .ok { d with _state := state, _queue := d._queue ++ [Msg.dispatcherState state] }
  else if state = get_state d then
    .ok d
  else
    .error (.valueError "Invalid state progression")

/-- `alive`: true in `STARTUP`, `RUNNING`, `SHUTDOWN`. -/
def alive (d : Dispatcher) : Bool :=
  d._state = State.STARTUP || d._state = State.RUNNING || d._state = State.SHUTDOWN

/-- Python `s.startswith(p)`, computed on the character data. -/
def startswith (s p : String) : Bool := p.data.isPrefixOf s.data

/-- The Python slice `s[1:]`, computed on the character data. -/
def sliceFrom1 (s : String) : String := ⟨s.data.drop 1⟩

/-- Truthiness of the `exposed` value in `_callmethod`: `None` and the
empty list are falsy, a non-empty list is truthy. -/
def truthyList : Option (List String) → Bool
  | some l => !l.isEmpty
  | none => false

/-- `_callmethod(obj, fname, args, kwargs)`: the exposure check is
`exposed and fname in exposed or not exposed and not fname.startswith('_')`;
when it passes, `function = getattr(obj, fname, None)` and
`function(*args, **kwargs)` is evaluated — a missing attribute leaves
`function = None` and calling it raises `TypeError`. -/
def _callmethod (obj : PyObj) (fname : String) (args : List Value)
    (kwargs : List (String × Value)) : Except PyError Value :=
  let exposed := obj.dispatch
  if (truthyList exposed && decide (fname ∈ exposed.getD []))
      || (!truthyList exposed && !startswith fname "_") then
    match lookupA obj.methods fname with
    | some f => f args kwargs
    | none => .error (.typeError "NoneType object is not callable")
  else
    .error (.attributeError ("object does not have an exposed method " ++ fname))

/-- The names the registry exposes for a provided class: the class's
explicit `_dispatch_` list when `getattr(source_class, '_dispatch_', None)`
is not `None`, else every `__dict__` attribute that is callable and whose
name does not start with an underscore, in iteration order. -/
def exposedMethods (cls : ProvClass) : List String :=
  match cls.dispatch with
  | some l => l
  | none => (cls.classDict.filter (fun p => !startswith p.1 "_" && p.2)).map Prod.fst

/-- `new_proxy(name, args, kwargs)`: looks the name up among the provided
classes (raising `NameError` otherwise), builds the instance with the
generator, keys the registry by the object identity `id(obj)`, asserts the
stored object has that same identity, bumps the reference count, and
returns the `ProxyHandle`. -/
def new_proxy (d : Dispatcher) (name : String) (args : List Value)
    (kwargs : List (String × Value)) : Except PyError (Dispatcher × Value) :=
  match lookupA d._provided_classes name with
  | none => .error (.nameError (name ++ " does not name a provided class"))
  | some cls =>
    let obj := cls.gen args kwargs
    let obj_id := obj.oid
    let stored := (lookupA d._objects obj_id).getD (obj, 0)
    if stored.1.oid = obj.oid then
      let d' := { d with _objects := insertA d._objects obj_id (obj, stored.2 + 1) }
      .ok (d', Value.proxyHandle obj_id name (exposedMethods cls))
    else
      .error (.assertionError "Different objects returned for the same key")

/-- `del_proxy(proxy_id)`: `self._objects.get(proxy_id, (None, 0))`; an
absent id or a non-positive count is only logged, a count of one removes
the entry, otherwise the count is decremented. Never raises. -/
def del_proxy (d : Dispatcher) (proxy_id : Int) : Dispatcher :=
  match lookupA d._objects proxy_id with
  | none => d
  | some (obj, refcount) =>
    if refcount ≤ 0 then d
    else if refcount = 1 then { d with _objects := eraseA d._objects proxy_id }
    else { d with _objects := insertA d._objects proxy_id (obj, refcount - 1) }

/-- `_process_response(response)`: pops the pending entry for the
response id; when the popped entry has a `set` attribute (it is an event),
the response is stored under the id and the event is signalled. The
returned boolean is whether `event.set()` ran. -/
def _process_response (d : Dispatcher) (r : Response) : Dispatcher × Bool :=
  let event := lookupA d._pending r.id
  let d' := { d with _pending := eraseA d._pending r.id }
  match event with
  | some (Pending.event _) =>
    ({ d' with _pending := insertA d'._pending r.id (Pending.stored r) }, true)
  | _ => (d', false)

/-- `_process_request(request)`: a `#`-prefixed function name targets the
dispatcher itself, whose own `_dispatch_` list is
`['del_proxy', 'new_proxy']`; otherwise the object registry is consulted
(`KeyError` becomes the RuntimeError response) and `_callmethod` runs the
method, any raised exception being captured in the `Response`. The
dispatcher self-calls decode their positional arguments from the request
exactly as the Python argument unpacking `function(*args, **kwargs)`
would bind them, a mismatch raising `TypeError`. -/
def _process_request (d : Dispatcher) (req : Request) : Dispatcher × Response :=
  if startswith req.function "#" then
    let fname := sliceFrom1 req.function
    if fname = "new_proxy" then
      match req.args, req.kwargs with
      | [Value.str n, Value.tuple a, Value.dict kw], [] =>
        match new_proxy d n a kw with
        | .ok (d', v) => (d', ⟨req.id, none, v⟩)
        | .error e => (d, ⟨req.id, some e, Value.none⟩)
      | _, _ => (d, ⟨req.id, some (.typeError "argument unpacking mismatch"), Value.none⟩)
    else if fname = "del_proxy" then
      match req.args, req.kwargs with
      | [Value.int pid], [] => (del_proxy d pid, ⟨req.id, none, Value.none⟩)
      | _, _ => (d, ⟨req.id, some (.typeError "argument unpacking mismatch"), Value.none⟩)
    else
      (d, ⟨req.id, some (.attributeError ("object does not have an exposed method " ++ fname)),
        Value.none⟩)
  else
    match req.proxy_id with
    | none => (d, ⟨req.id, some (.runtimeError "No object found"), Value.none⟩)
    | some pid =>
      match lookupA d._objects pid with
      | none => (d, ⟨req.id, some (.runtimeError "No object found"), Value.none⟩)
      | some (obj, _) =>
        match _callmethod obj req.function req.args req.kwargs with
        | .ok v => (d, ⟨req.id, none, v⟩)
        | .error e => (d, ⟨req.id, some e, Value.none⟩)

/-- Steps 1 and 2 of `call(function, args, kwargs, proxy_id, wait)` up to
the blocking `event.wait()`: builds the `Request` from the generated id,
registers the event under the id when `wait` is true, and appends the
request at the left end of the deque. -/
def call_register (d : Dispatcher) (reqId : Nat) (function : String) (args : List Value)
    (kwargs : List (String × Value)) (proxy_id : Option Int) (wait : Bool) :
    Dispatcher × Request :=
  let request : Request := ⟨reqId, proxy_id, function, args, kwargs⟩
  let d' := if wait then { d with _pending := insertA d._pending reqId (Pending.event false) }
            else d
  ({ d' with _queue := Msg.request request :: d'._queue }, request)

/-- The outcome of step 3 of `call`: a plain return value, a raised
exception, or a `Proxy` constructed from a consumed `ProxyHandle`
(recording the handle id and exposed names the proxy is built from). -/
inductive CallResult where
  | ret (v : Value)
  | raised (e : PyError)
  | proxy (id : Int) (exposed : List String)
deriving Repr

/-- Step 3 of `call` after `event.wait()` returns: pops the pending entry
for the request id; anything but a stored `Response` raises
`RuntimeError`; a carried exception is re-raised; a `ProxyHandle` return
value is turned into a proxy of the consumed class, an unconsumed handle
type being logged and `None` returned; any other value is returned
verbatim. -/
def call_collect (d : Dispatcher) (reqId : Nat) : Dispatcher × CallResult :=
  let response := lookupA d._pending reqId
  let d' := { d with _pending := eraseA d._pending reqId }
  match response with
  | some (Pending.stored r) =>
    match r.exception with
    | some e => (d', .raised e)
    | none =>
      match r.return_value with
      | .proxyHandle hid htype hexp =>
        if htype ∈ d'._consumed_classes then (d', .proxy hid hexp)
        else (d', .ret Value.none)
      | v => (d', .ret v)
  | _ => (d', .raised (.runtimeError "Dispatcher stored invalid response"))

/-- The outcome of `conn.send(msg)`: success, an `IOError`, or another
exception (most likely a `PicklingError`). -/
inductive SendOutcome where
  | ok
  | ioError
  | raised (e : PyError)

/-- `deque.pop()`: removes from the right end; `IndexError` on an empty
deque is the `none` case. -/
def popRight (l : List Msg) : Option (Msg × List Msg) :=
  match l.getLast? with
  | none => none
  | some m => some (m, l.dropLast)

/-- `_write_once(conn)`: returns early when not alive or the queue is
empty; otherwise pops one message from the right end and sends it when it
is a `DispatcherState` or the state is `RUNNING` (else the message is
logged and skipped). An `IOError` from `send` terminates the dispatcher; any
other exception synthesizes an error `Response` for the message's id (when
it has one) and feeds it into `_process_response`. The `Option Msg` in the
result is the message actually transmitted, if any. -/
def _write_once (send : Msg → SendOutcome) (d : Dispatcher) :
    Dispatcher × Except PyError (Option Msg) :=
  if !alive d then (d, .ok none)
  else
    match popRight d._queue with
    | none => (d, .ok none)
    | some (msg, rest) =>
      let d' := { d with _queue := rest }
      if isDispatcherState msg || d'._state = State.RUNNING then
        match send msg with
        | .ok => (d', .ok (some msg))
        | .ioError =>
          match set_state d' State.TERMINATED with
          | .ok d'' => (d'', .ok none)
          | .error e => (d', .error e)
        | .raised e =>
          match msgId msg with
          | some i => ((_process_response d' ⟨i, some e, Value.none⟩).1, .ok none)
          | none => (d', .ok none)
      else
        (d', .ok none)

/-- The outcome of `conn.recv()`: a message, or `EOFError` on
end-of-stream. -/
inductive RecvOutcome where
  | msg (m : Msg)
  | eofError

/-- `_read_once(conn, timeout)`: returns `None` early when not alive or
`conn.poll(timeout)` is false. On `EOFError` from `recv` the state is set
to `TERMINATED`, after which control falls through to
`isinstance(msg, Request)` with the local variable `msg` unbound, raising
`UnboundLocalError`. Otherwise the message is dispatched by type: a
`Request` in `RUNNING` is processed and its response enqueued at the left
end; a `Response` in `RUNNING` resolves a pending call; a
`DispatcherState` drives the state machine; anything else is logged and
skipped. The function returns `True` at the end of the dispatch.
The `Except` part is an exception escaping the step; state mutations that
happened before it are kept. -/
def _read_once (poll : Bool) (recv : RecvOutcome) (d : Dispatcher) :
    Dispatcher × Except PyError (Option Bool) :=
  if !alive d || !poll then (d, .ok none)
  else
    match recv with
    | .eofError =>
      match set_state d State.TERMINATED with
      | .ok d' =>
        (d', .error (.unboundLocalError "local variable msg referenced before assignment"))
      | .error e => (d, .error e)
    | .msg m =>
      match m with
      | .request req =>
        if d._state = State.RUNNING then
          let (d', resp) := _process_request d req
          ({ d' with _queue := Msg.response resp :: d'._queue }, .ok (some true))
        else (d, .ok (some true))
      | .response r =>
        if d._state = State.RUNNING then ((_process_response d r).1, .ok (some true))
        else (d, .ok (some true))
      | .dispatcherState s =>
        if d._state = State.STARTUP && s = State.STARTUP then
          match set_state d State.RUNNING with
          | .ok d' => (d', .ok (some true))
          | .error e => (d, .error e)
        else if s = State.SHUTDOWN then
          match set_state d s with
          | .ok d' => (d', .ok (some true))
          | .error e => (d, .error e)
        else (d, .ok (some true))

/-- Whether a value is a `ProxyHandle` (`isinstance(v, ProxyHandle)`). -/
def isProxyHandle : Value → Bool
  | .proxyHandle _ _ _ => true
  | _ => false

theorem lookupA_insertA_self {α β : Type} [DecidableEq α] (l : List (α × β)) (k : α) (v : β) :
    lookupA (insertA l k v) k = some v := by
  simp [insertA, lookupA]

theorem lookupA_eraseA_self {α β : Type} [DecidableEq α] (l : List (α × β)) (k : α) :
    lookupA (eraseA l k) k = none := by
  induction l with
  | nil => rfl
  | cons p t ih =>
    by_cases h : p.1 = k
    · simpa [eraseA, List.filter_cons, h] using ih
    · simpa [eraseA, List.filter_cons, h, lookupA] using ih

theorem eraseA_of_lookupA_eq_none {α β : Type} [DecidableEq α] (l : List (α × β)) (k : α)
    (h : lookupA l k = none) : eraseA l k = l := by
  induction l with
  | nil => rfl
  | cons p t ih =>
    by_cases hp : p.1 = k
    · simp [lookupA, hp] at h
    · simp only [lookupA, hp, if_false] at h
      simp [eraseA, List.filter_cons, hp] at ih ⊢
      exact ih h

theorem call_collect_fst (d : Dispatcher) (k : Nat) :
    (call_collect d k).1 = { d with _pending := eraseA d._pending k } := by
  unfold call_collect
  rcases h : lookupA d._pending k with _ | p
  · rfl
  · rcases p with b | r
    · rfl
    · rcases he : r.exception with _ | e
      · rcases hv : r.return_value <;> simp [he, hv]
        split <;> rfl
      · simp [he]

/-- C2: the dispatcher lifecycle state only advances monotonically: for
every current state, setting a numerically greater state succeeds (and
queues the control message), setting an equal state is a no-op, and
setting a numerically lower state raises the invalid-state-progression
`ValueError`, leaving the dispatcher unchanged. -/
theorem C2_set_state_monotonic (d : Dispatcher) (s : Nat) :
    (get_state d < s → set_state d s =
        .ok { d with _state := s, _queue := d._queue ++ [Msg.dispatcherState s] })
    ∧ (s = get_state d → set_state d s = .ok d)
    ∧ (s < get_state d →
        set_state d s = .error (.valueError "Invalid state progression")) := by
  refine ⟨fun h => ?_, fun h => ?_, fun h => ?_⟩
  · simp [set_state, h]
  · simp [set_state, h]
  · have h1 : ¬ (s > get_state d) := by omega
    have h2 : ¬ (s = get_state d) := by omega
    simp [set_state, h1, h2]

/-- Witness for C2 at a dispatcher in state `RUNNING`: advancing to
`SHUTDOWN` succeeds, re-setting `RUNNING` is a no-op, regressing to
`STARTUP` raises. -/
theorem C2_witness :
    set_state { _state := 2 } 3 = .ok { _state := 3, _queue := [Msg.dispatcherState 3] }
    ∧ set_state { _state := 2 } 2 = .ok { _state := 2 }
    ∧ set_state { _state := 2 } 1 = .error (.valueError "Invalid state progression") :=
  ⟨(C2_set_state_monotonic { _state := 2 } 3).1 (by decide),
   (C2_set_state_monotonic { _state := 2 } 2).2.1 (by decide),
   (C2_set_state_monotonic { _state := 2 } 1).2.2 (by decide)⟩

/-- C4 counterexample: starting from a `RUNNING` dispatcher with an empty
queue, `call` enqueues a plain request (id 1, `foo`) and then a
control-prefixed request (id 2, `#bar`); the next write step transmits the
plain request, not the prefixed one, so the prefixed request was not
placed at the head of the queue as the claim states. -/
theorem C4_counterexample :
    (_write_once (fun _ => SendOutcome.ok)
        (call_register (call_register { _state := 2 } 1 "foo" [] [] none true).1
          2 "#bar" [] [] none true).1).2
      = .ok (some (Msg.request ⟨1, none, "foo", [], []⟩))
    ∧ startswith "#bar" "#" = true
    ∧ Msg.request (⟨1, none, "foo", [], []⟩ : Request)
        ≠ Msg.request ⟨2, none, "#bar", [], []⟩ := by
  refine ⟨rfl, by decide, fun h => ?_⟩
  simp at h

/-- C4 amended: `call()` enqueues every request it builds at the left end
of the deque — the tail relative to the pop end that `_write_once` drains —
regardless of whether the function name carries the reserved control
prefix; only `DispatcherState` messages are enqueued at the head. -/
theorem C4_amended_requests_enqueue_at_tail (d : Dispatcher) (reqId : Nat)
    (fname : String) (args : List Value) (kwargs : List (String × Value))
    (proxy_id : Option Int) (wait : Bool) :
    (call_register d reqId fname args kwargs proxy_id wait).1._queue
      = Msg.request ⟨reqId, proxy_id, fname, args, kwargs⟩ :: d._queue := by
  cases wait <;> rfl

/-- Witness for C4 amended at a concrete prefixed call on a non-empty
queue. -/
theorem C4_amended_witness :
    (call_register { _state := 2, _queue := [Msg.dispatcherState 2] }
        5 "#new_proxy" [] [] none true).1._queue
      = [Msg.request ⟨5, none, "#new_proxy", [], []⟩, Msg.dispatcherState 2] :=
  C4_amended_requests_enqueue_at_tail
    { _state := 2, _queue := [Msg.dispatcherState 2] } 5 "#new_proxy" [] [] none true

/-- C9: when `recv` raises end-of-stream while the dispatcher is alive and
a message was polled, the read step does set the state to `TERMINATED`
directly — but it then falls through to the type dispatch with the local
variable unbound, so an `UnboundLocalError` escapes the read step instead
of it completing normally (the missing early return is a code bug relative
to the specified behaviour). -/
theorem C9_eof_terminates_but_raises_unbound_local :
    _read_once true RecvOutcome.eofError { _state := 2 }
      = ({ _state := 4, _queue := [Msg.dispatcherState 4] },
         .error (.unboundLocalError "local variable msg referenced before assignment")) := rfl

/-- C10: when `_process_response` handles a `Response` whose pending entry
is absent or already a stored `Response`, it signals no event, leaves the
table with no entry for that id, and a subsequent collection by the caller
pops nothing and raises the runtime protocol error — so each request id is
signalled at most once and a duplicate destroys the stored first response. -/
theorem C10_duplicate_response_signals_nothing (d : Dispatcher) (r : Response)
    (h : lookupA d._pending r.id = none
      ∨ ∃ r0, lookupA d._pending r.id = some (Pending.stored r0)) :
    (_process_response d r).2 = false
    ∧ lookupA (_process_response d r).1._pending r.id = none
    ∧ (call_collect (_process_response d r).1 r.id).2
        = .raised (.runtimeError "Dispatcher stored invalid response") := by
  obtain h | ⟨r0, h⟩ := h <;>
    simp [_process_response, h, call_collect, lookupA_eraseA_self]

/-- Witness for C10: a duplicate response for id 1 arrives while the first
response is still stored; no event is signalled, the entry disappears, and
the caller's collection raises the protocol error. -/
theorem C10_witness :
    (_process_response { _pending := [(1, Pending.stored ⟨1, none, Value.int 5⟩)] }
        ⟨1, none, Value.int 6⟩).2 = false
    ∧ lookupA (_process_response { _pending := [(1, Pending.stored ⟨1, none, Value.int 5⟩)] }
        ⟨1, none, Value.int 6⟩).1._pending 1 = none
    ∧ (call_collect (_process_response
        { _pending := [(1, Pending.stored ⟨1, none, Value.int 5⟩)] }
        ⟨1, none, Value.int 6⟩).1 1).2
        = .raised (.runtimeError "Dispatcher stored invalid response") :=
  C10_duplicate_response_signals_nothing
    { _pending := [(1, Pending.stored ⟨1, none, Value.int 5⟩)] }
    ⟨1, none, Value.int 6⟩ (Or.inr ⟨⟨1, none, Value.int 5⟩, rfl⟩)

/-- C7: evaluation of the failing input of the code bug. Invoking a method
name the exposure policy forbids does raise `AttributeError` (last
conjunct), but invoking a public method name that does not exist on an
object with no allow-list passes the policy check, leaves
`getattr(obj, fname, None)` as `None`, and calling it raises `TypeError` —
not the attribute-style error the claim states — and that `TypeError` is
what the blocked caller re-raises. -/
theorem C7_missing_method_gives_typeerror_not_attributeerror :
    _callmethod ⟨7, none, []⟩ "nosuch" [] []
        = .error (.typeError "NoneType object is not callable")
    ∧ (_process_request
          { _state := 2, _objects := [(7, (⟨7, none, []⟩, 1))] }
          ⟨1, some 7, "nosuch", [], []⟩).2
        = ⟨1, some (.typeError "NoneType object is not callable"), Value.none⟩
    ∧ (call_collect
          (_process_response { _pending := [(1, Pending.event false)] }
            ⟨1, some (.typeError "NoneType object is not callable"), Value.none⟩).1 1).2
        = .raised (.typeError "NoneType object is not callable")
    ∧ _callmethod ⟨8, some ["inc"], [("dec", fun _ _ => .ok Value.none)]⟩ "dec" [] []
        = .error (.attributeError "object does not have an exposed method dec") := by
  refine ⟨?_, ?_, ?_, ?_⟩ <;> rfl

/-- C6: two `new_proxy` calls whose factory returns the same underlying
object yield the same object id and one entry whose count becomes 2;
`del_proxy` decrements and removes the entry only at the second release;
`del_proxy` on an absent id does not raise and changes nothing. -/
theorem C6_reference_counting (d : Dispatcher) (name : String) (cls : ProvClass)
    (args : List Value) (kwargs : List (String × Value)) (obj : PyObj)
    (hcls : lookupA d._provided_classes name = some cls)
    (hgen : cls.gen args kwargs = obj)
    (hfresh : lookupA d._objects obj.oid = none) :
    ∃ d1 d2,
      new_proxy d name args kwargs
          = .ok (d1, Value.proxyHandle obj.oid name (exposedMethods cls))
      ∧ new_proxy d1 name args kwargs
          = .ok (d2, Value.proxyHandle obj.oid name (exposedMethods cls))
      ∧ lookupA d2._objects obj.oid = some (obj, 2)
      ∧ lookupA (del_proxy d2 obj.oid)._objects obj.oid = some (obj, 1)
      ∧ lookupA (del_proxy (del_proxy d2 obj.oid) obj.oid)._objects obj.oid = none
      ∧ del_proxy (del_proxy (del_proxy d2 obj.oid) obj.oid) obj.oid
          = del_proxy (del_proxy d2 obj.oid) obj.oid := by
  refine ⟨{ d with _objects := insertA d._objects obj.oid (obj, 1) },
          { d with _objects :=
              insertA (insertA d._objects obj.oid (obj, 1)) obj.oid (obj, 2) },
          ?_, ?_, ?_, ?_, ?_, ?_⟩
  · simp [new_proxy, hcls, hgen, hfresh]
  · simp [new_proxy, hcls, hgen, lookupA_insertA_self]
  · exact lookupA_insertA_self _ _ _
  · simp [del_proxy, lookupA_insertA_self]
  · simp [del_proxy, lookupA_insertA_self, lookupA_eraseA_self]
  · simp [del_proxy, lookupA_insertA_self, lookupA_eraseA_self]

/-- Witness for C6: a provided `Counter` class whose factory always
returns the one object with identity 7. -/
theorem C6_witness :
    ∃ d1 d2,
      new_proxy
          { _provided_classes :=
              [("Counter", ⟨none, [("inc", true)], fun _ _ => ⟨7, none, []⟩⟩)] }
          "Counter" [] []
          = .ok (d1, Value.proxyHandle 7 "Counter" ["inc"])
      ∧ new_proxy d1 "Counter" [] []
          = .ok (d2, Value.proxyHandle 7 "Counter" ["inc"])
      ∧ lookupA d2._objects 7 = some (⟨7, none, []⟩, 2)
      ∧ lookupA (del_proxy d2 7)._objects 7 = some (⟨7, none, []⟩, 1)
      ∧ lookupA (del_proxy (del_proxy d2 7) 7)._objects 7 = none
      ∧ del_proxy (del_proxy (del_proxy d2 7) 7) 7
          = del_proxy (del_proxy d2 7) 7 :=
  C6_reference_counting
    { _provided_classes :=
        [("Counter", ⟨none, [("inc", true)], fun _ _ => ⟨7, none, []⟩⟩)] }
    "Counter" ⟨none, [("inc", true)], fun _ _ => ⟨7, none, []⟩⟩ [] [] ⟨7, none, []⟩
    rfl rfl rfl

/-- C8: the `ProxyHandle` returned by `new_proxy` carries as its exposed
set exactly the class's explicit `_dispatch_` allow-list when the class
defines one, and otherwise exactly the public callable attributes of the
class dictionary. The second hypothesis is the registry invariant that a
stored entry's object has the key as its identity (which Python's `id`
guarantees), under which the internal assertion cannot fire. -/
theorem C8_proxyhandle_exposed_set (d : Dispatcher) (name : String) (cls : ProvClass)
    (args : List Value) (kwargs : List (String × Value))
    (hcls : lookupA d._provided_classes name = some cls)
    (hwf : ∀ o rc, lookupA d._objects (cls.gen args kwargs).oid = some (o, rc)
      → o.oid = (cls.gen args kwargs).oid) :
    (∃ d', new_proxy d name args kwargs
        = .ok (d', Value.proxyHandle (cls.gen args kwargs).oid name (exposedMethods cls)))
    ∧ (∀ l, cls.dispatch = some l → exposedMethods cls = l)
    ∧ (cls.dispatch = none →
        ∀ a, a ∈ exposedMethods cls
          ↔ ((a, true) ∈ cls.classDict ∧ ¬ startswith a "_" = true)) := by
  refine ⟨?_, fun l hl => by simp [exposedMethods, hl], fun hn a => ?_⟩
  · rcases hlook : lookupA d._objects (cls.gen args kwargs).oid with _ | ⟨o, rc⟩
    · have h1 : new_proxy d name args kwargs = .ok ({ d with _objects := insertA d._objects (cls.gen args kwargs).oid (cls.gen args kwargs, 1) }, Value.proxyHandle (cls.gen args kwargs).oid name (exposedMethods cls)) := by
        simp [new_proxy, hcls, hlook]
      exact ⟨_, h1⟩
    · have h1 : new_proxy d name args kwargs = .ok ({ d with _objects := insertA d._objects (cls.gen args kwargs).oid (cls.gen args kwargs, rc + 1) }, Value.proxyHandle (cls.gen args kwargs).oid name (exposedMethods cls)) := by
        simp [new_proxy, hcls, hlook, hwf o rc hlook]
      exact ⟨_, h1⟩
  · simp only [exposedMethods, hn, List.mem_map, List.mem_filter]
    constructor
    · rintro ⟨⟨a', b⟩, ⟨hmem, hpred⟩, ha⟩
      simp only at ha
      subst ha
      simp only [Bool.and_eq_true, Bool.not_eq_true'] at hpred
      obtain ⟨hpre, hb⟩ := hpred
      refine ⟨by simpa [hb] using hmem, by simp [hpre]⟩
    · rintro ⟨hmem, hpre⟩
      refine ⟨(a, true), ⟨hmem, ?_⟩, rfl⟩
      simp only [Bool.not_eq_true] at hpre
      simp [hpre]

/-- Witness for C8 on a class without an allow-list whose dictionary holds
a public callable, a private callable, and a public non-callable. -/
theorem C8_witness :
    (∃ d', new_proxy
        { _provided_classes :=
            [("C", ⟨none, [("inc", true), ("_hidden", true), ("doc", false)],
              fun _ _ => ⟨7, none, []⟩⟩)] }
        "C" [] []
        = .ok (d', Value.proxyHandle 7 "C" ["inc"]))
    ∧ (∀ l, (none : Option (List String)) = some l → ["inc"] = l)
    ∧ ((none : Option (List String)) = none →
        ∀ a, a ∈ exposedMethods
            ⟨none, [("inc", true), ("_hidden", true), ("doc", false)],
              fun _ _ => ⟨7, none, []⟩⟩
          ↔ ((a, true) ∈ [("inc", true), ("_hidden", true), ("doc", false)]
              ∧ ¬ startswith a "_" = true)) :=
  C8_proxyhandle_exposed_set
    { _provided_classes :=
        [("C", ⟨none, [("inc", true), ("_hidden", true), ("doc", false)],
          fun _ _ => ⟨7, none, []⟩⟩)] }
    "C" ⟨none, [("inc", true), ("_hidden", true), ("doc", false)], fun _ _ => ⟨7, none, []⟩⟩
    [] [] rfl (fun _ _ h => Option.noConfusion h)

theorem popRight_concat (l : List Msg) (m : Msg) : popRight (l ++ [m]) = some (m, l) := by
  simp [popRight, List.getLast?_concat, List.dropLast_concat]

/-- C5: a lifecycle control message enqueued by a state transition while
application messages are already queued is transmitted by the next write
step before any of them: `set_state` appends the `DispatcherState` at the
pop end, and `_write_once` pops and sends exactly it, leaving every
previously queued message still in the queue. -/
theorem C5_control_message_transmitted_first (send : Msg → SendOutcome)
    (d : Dispatcher) (s : Nat)
    (hgt : get_state d < s)
    (halive : s = State.STARTUP ∨ s = State.RUNNING ∨ s = State.SHUTDOWN)
    (hsend : send (Msg.dispatcherState s) = SendOutcome.ok) :
    ∃ d', set_state d s = .ok d'
      ∧ d'._queue = d._queue ++ [Msg.dispatcherState s]
      ∧ _write_once send d'
          = ({ d' with _queue := d._queue }, .ok (some (Msg.dispatcherState s))) := by
  refine ⟨{ d with _state := s, _queue := d._queue ++ [Msg.dispatcherState s] }, ?_, rfl, ?_⟩
  · simp [set_state, hgt]
  · have halive' :
        alive { d with _state := s, _queue := d._queue ++ [Msg.dispatcherState s] } = true := by
      rcases halive with h | h | h <;> simp [alive, h]
    simp [_write_once, halive', popRight_concat, isDispatcherState, hsend]

/-- Witness for C5: a `RUNNING` dispatcher with two queued application
requests transitions to `SHUTDOWN`; the next write transmits the control
message and keeps both requests queued. -/
theorem C5_witness :
    ∃ d', set_state { _state := 2, _queue := [Msg.request ⟨8, none, "foo", [], []⟩, Msg.request ⟨9, none, "bar", [], []⟩] } 3 = .ok d'
      ∧ d'._queue = [Msg.request ⟨8, none, "foo", [], []⟩, Msg.request ⟨9, none, "bar", [], []⟩] ++ [Msg.dispatcherState 3]
      ∧ _write_once (fun _ => SendOutcome.ok) d'
          = ({ d' with _queue := [Msg.request ⟨8, none, "foo", [], []⟩, Msg.request ⟨9, none, "bar", [], []⟩] }, .ok (some (Msg.dispatcherState 3))) :=
  C5_control_message_transmitted_first (fun _ => SendOutcome.ok)
    { _state := 2, _queue := [Msg.request ⟨8, none, "foo", [], []⟩, Msg.request ⟨9, none, "bar", [], []⟩] }
    3 (by decide) (Or.inr (Or.inr rfl)) rfl

/-- C3: when sending a popped `Request` fails with a non-disconnect
exception, the engine synthesizes the error `Response` for its id and
feeds it into `_process_response`: the waiting event is signalled, the
table then stores the synthesized response, and the caller's collection
raises the carried error instead of hanging. -/
theorem C3_failed_send_synthesizes_error_response (send : Msg → SendOutcome)
    (d : Dispatcher) (req : Request) (e : PyError) (b : Bool)
    (hstate : d._state = State.RUNNING)
    (hq : d._queue.getLast? = some (Msg.request req))
    (hpend : lookupA d._pending req.id = some (Pending.event b))
    (hsend : send (Msg.request req) = SendOutcome.raised e) :
    ∃ d', _write_once send d = (d', .ok none)
      ∧ (_process_response { d with _queue := d._queue.dropLast } ⟨req.id, some e, Value.none⟩).2 = true
      ∧ lookupA d'._pending req.id = some (Pending.stored ⟨req.id, some e, Value.none⟩)
      ∧ (call_collect d' req.id).2 = .raised e := by
  have halive : alive d = true := by simp [alive, hstate]
  have hpop : popRight d._queue = some (Msg.request req, d._queue.dropLast) := by
    simp [popRight, hq]
  refine ⟨{ d with _queue := d._queue.dropLast, _pending := insertA (eraseA d._pending req.id) req.id (Pending.stored ⟨req.id, some e, Value.none⟩) }, ?_, ?_, ?_, ?_⟩
  · simp [_write_once, halive, hpop, isDispatcherState, hstate, hsend, msgId,
      _process_response, hpend]
  · simp [_process_response, hpend]
  · simp [lookupA_insertA_self]
  · simp [call_collect, lookupA_insertA_self]

/-- Witness for C3: a `RUNNING` dispatcher with one queued request whose
send raises a pickling-style exception; the blocked caller for id 5 ends
up raising that error. -/
theorem C3_witness :
    ∃ d', _write_once (fun _ => SendOutcome.raised (.exception "PicklingError")) { _state := 2, _queue := [Msg.request ⟨5, none, "foo", [], []⟩], _pending := [(5, Pending.event false)] } = (d', .ok none)
      ∧ (_process_response { _state := 2, _queue := ([Msg.request ⟨5, none, "foo", [], []⟩] : List Msg).dropLast, _pending := [(5, Pending.event false)] } ⟨5, some (.exception "PicklingError"), Value.none⟩).2 = true
      ∧ lookupA d'._pending 5 = some (Pending.stored ⟨5, some (.exception "PicklingError"), Value.none⟩)
      ∧ (call_collect d' 5).2 = .raised (.exception "PicklingError") :=
  C3_failed_send_synthesizes_error_response
    (fun _ => SendOutcome.raised (.exception "PicklingError"))
    { _state := 2, _queue := [Msg.request ⟨5, none, "foo", [], []⟩], _pending := [(5, Pending.event false)] }
    ⟨5, none, "foo", [], []⟩ (.exception "PicklingError") false rfl rfl rfl rfl

/-- C1 counterexample: a matching well-formed `Response` carrying a
`ProxyHandle` of a consumed type fulfils the call, but `call()` does not
return the carried return value — it constructs and returns a `Proxy`
instead. -/
theorem C1_counterexample :
    (call_collect (_process_response { _pending := [(1, Pending.event false)], _consumed_classes := ["Counter"] } ⟨1, none, Value.proxyHandle 7 "Counter" ["inc"]⟩).1 1).2
      ≠ CallResult.ret (Value.proxyHandle 7 "Counter" ["inc"]) := by
  intro hcontra
  exact CallResult.noConfusion hcontra

/-- C1 amended: for every synchronous call whose id is fulfilled by a
matching well-formed `Response`, the event is signalled, and the caller's
collection raises the carried exception when the exception field is set;
otherwise it returns the carried return value — except that a
`ProxyHandle` value is converted into a constructed `Proxy` when its type
is consumed, and into `None` when it is not. Afterwards the pending table
holds no entry for the id, and a second collection for the same id raises
the runtime protocol error (delivery happens exactly once). -/
theorem C1_amended_sync_call_delivery (d : Dispatcher) (r : Response) (b : Bool)
    (h : lookupA d._pending r.id = some (Pending.event b)) :
    ∃ dp, _process_response d r = (dp, true)
      ∧ (∀ e, r.exception = some e → (call_collect dp r.id).2 = .raised e)
      ∧ (r.exception = none →
          (∀ hid ht hexp, r.return_value = Value.proxyHandle hid ht hexp →
            (call_collect dp r.id).2
              = if ht ∈ dp._consumed_classes then .proxy hid hexp else .ret Value.none)
          ∧ (isProxyHandle r.return_value = false →
              (call_collect dp r.id).2 = .ret r.return_value))
      ∧ lookupA (call_collect dp r.id).1._pending r.id = none
      ∧ (call_collect (call_collect dp r.id).1 r.id).2
          = .raised (.runtimeError "Dispatcher stored invalid response") := by
  refine ⟨{ d with _pending := insertA (eraseA d._pending r.id) r.id (Pending.stored r) }, ?_, ?_, ?_, ?_, ?_⟩
  · simp [_process_response, h]
  · intro e he
    simp [call_collect, lookupA_insertA_self, he]
  · intro hexc
    constructor
    · intro hid ht hexp hval
      simp only [call_collect, lookupA_insertA_self, hexc, hval]
      split <;> rfl
    · intro hnp
      cases hv : r.return_value <;>
        simp_all [call_collect, lookupA_insertA_self, isProxyHandle]
  · simp [call_collect_fst, lookupA_eraseA_self]
  · rw [call_collect_fst]
    simp [call_collect, lookupA_eraseA_self]

/-- Witness for C1 amended: a waiting event for id 1 fulfilled by a
response carrying an application exception. -/
theorem C1_amended_witness :
    ∃ dp, _process_response { _pending := [(1, Pending.event false)], _consumed_classes := ["Counter"] } ⟨1, some (.exception "boom"), Value.none⟩ = (dp, true)
      ∧ (∀ e, (some (PyError.exception "boom") : Option PyError) = some e → (call_collect dp 1).2 = .raised e)
      ∧ ((some (PyError.exception "boom") : Option PyError) = none →
          (∀ hid ht hexp, Value.none = Value.proxyHandle hid ht hexp →
            (call_collect dp 1).2
              = if ht ∈ dp._consumed_classes then CallResult.proxy hid hexp else CallResult.ret Value.none)
          ∧ (isProxyHandle Value.none = false → (call_collect dp 1).2 = CallResult.ret Value.none))
      ∧ lookupA (call_collect dp 1).1._pending 1 = none
      ∧ (call_collect (call_collect dp 1).1 1).2
          = .raised (.runtimeError "Dispatcher stored invalid response") :=
  C1_amended_sync_call_delivery
    { _pending := [(1, Pending.event false)], _consumed_classes := ["Counter"] }
    ⟨1, some (.exception "boom"), Value.none⟩ false rfl
